import Mathlib

/-!
Verification development for the System-Monitoring-Deployment-Dashboard
repository. The operational code is the Node/Express server embedded in
src/terraform/main.tf (health-check cron job, acknowledge endpoint,
dashboard-summary endpoint); the relational schema is src/db/init.sql.
The definitions below are a shallow embedding of that code: database rows
become structures, SQL statements become list operations, NOW() becomes an
explicit `now : Nat` parameter, and the per-request handlers become pure
functions from store state to store state plus an HTTP status code.
Resource-average fields of the dashboard summary (floating-point AVG over
server_metrics, the constant uptime figure) are omitted: no claim below
refers to them.
-/

/-- Severity enum from src/db/init.sql: alert_severity. -/
inductive Severity
  | critical
  | warning
  | info
deriving DecidableEq, Repr

/-- Server status enum from src/db/init.sql: server_status. -/
inductive ServerStatus
  | online
  | offline
  | maintenance
  | degraded
deriving DecidableEq, Repr

/-- User role enum from src/db/init.sql: user_role. -/
inductive Role
  | admin
  | operator
  | viewer
deriving DecidableEq, Repr

/-- Row of the servers table (fields used by the embedded server code:
id, ip_address, status, last_checked; name/hostname kept as identity). -/
structure Server where
  id : Nat
  name : String
  ipAddress : String
  status : ServerStatus
  lastChecked : Option Nat
deriving DecidableEq, Repr

/-- Row of the alerts table (src/db/init.sql lines 68-85; uuid and the
resolved / container columns that no operation of the embedded code
touches are kept only where a claim mentions them). -/
structure Alert where
  id : Nat
  serverId : Option Nat
  severity : Severity
  source : Option String
  message : String
  details : Option String
  acknowledged : Bool
  acknowledgedBy : Option Nat
  acknowledgedAt : Option Nat
  createdAt : Nat
  updatedAt : Nat
deriving DecidableEq, Repr

/-- Row of the containers table; only COUNT(*) over it is ever used. -/
structure Container where
  id : Nat
deriving DecidableEq, Repr

/-- The relational store: the tables the claims are about, plus the
SERIAL counter backing alerts.id. -/
structure Store where
  servers : List Server
  containers : List Container
  alerts : List Alert
  nextAlertId : Nat
deriving DecidableEq, Repr

/-- Authenticated actor decoded from the JWT (req.user carries id and
role). -/
structure Actor where
  id : Nat
  role : Role
deriving DecidableEq, Repr

/-- Effect of `UPDATE alerts SET acknowledged = true, acknowledged_by = $1,
acknowledged_at = NOW() WHERE id = $2` on one matching row
(src/terraform/main.tf lines 459-461); updated_at is set by the
update_alerts_updated_at trigger of src/db/init.sql. -/
def ackRow (userId now : Nat) (a : Alert) : Alert :=
  { a with
    acknowledged := true
    acknowledgedBy := some userId
    acknowledgedAt := some now
    updatedAt := now }

/-- POST /api/alerts/:id/acknowledge (src/terraform/main.tf lines 456-470):
runs the UPDATE against every row whose id matches, then responds
{ success: true } with HTTP 200 unconditionally. -/
def acknowledgeAlert (st : Store) (alertId userId now : Nat) : Store × Nat :=
  ({ st with
      alerts := st.alerts.map fun a =>
        if a.id = alertId then ackRow userId now a else a },
   200)

/-- The acknowledge route handler as seen by an authenticated request:
only req.user.id is read; req.user.role is never inspected. -/
def acknowledgeHandler (st : Store) (alertId : Nat) (actor : Actor) (now : Nat) :
    Store × Nat :=
  acknowledgeAlert st alertId actor.id now

/-- Alert row inserted by the health-check job on an unhealthy probe
(src/terraform/main.tf lines 537-541): severity critical, templated
message, no source, no details, unacknowledged; created_at and the
trigger-maintained updated_at are NOW(). -/
def failureAlert (alertId : Nat) (srv : Server) (now : Nat) : Alert :=
  { id := alertId
    serverId := some srv.id
    severity := Severity.critical
    source := none
    message := "Server " ++ srv.ipAddress ++ " is not responding"
    details := none
    acknowledged := false
    acknowledgedBy := none
    acknowledgedAt := none
    createdAt := now
    updatedAt := now }

/-- One iteration of the health-check loop body for one server
(src/terraform/main.tf lines 527-543): record the probe outcome to status
and last_checked, and on an unhealthy outcome insert a new critical alert
row unconditionally. -/
def checkServer (healthy : Bool) (now : Nat) (st : Store) (srv : Server) : Store :=
  let st1 : Store :=
    { st with
        servers := st.servers.map fun s =>
          if s.id = srv.id then
            { s with
                status := if healthy then ServerStatus.online else ServerStatus.offline
                lastChecked := some now }
          else s }
  if healthy then st1
  else
    { st1 with
        alerts := st1.alerts ++ [failureAlert st1.nextAlertId srv now]
        nextAlertId := st1.nextAlertId + 1 }

/-- Snapshot the loop ranges over: SELECT ... FROM servers WHERE
status = online, taken once at the start of the pass
(src/terraform/main.tf line 525). -/
def passTargets (st : Store) : List Server :=
  st.servers.filter fun s => decide (s.status = ServerStatus.online)

/-- Sequential execution of the loop over the snapshot, with a per-server
step that may raise (`none` models a rejected awaited query). The whole
loop body sits inside a single try/catch, so a raised step propagates to
the pass-level catch: the state written so far persists and the remaining
servers are not processed; the Bool records whether the pass completed. -/
def runPass (step : Store → Server → Option Store) :
    List Server → Store → Store × Bool
  | [], st => (st, true)
  | srv :: rest, st =>
    match step st srv with
    | some st2 => runPass step rest st2
    | none => (st, false)

/-- The scheduled health-check job (src/terraform/main.tf lines 520-549)
in the fault-free case: every per-server step succeeds. The probe outcome
is the oracle `healthy`, indexed by server id (the code draws it from
Math.random). -/
def healthTick (healthy : Nat → Bool) (now : Nat) (st : Store) : Store :=
  (runPass (fun acc srv => some (checkServer (healthy srv.id) now acc srv))
      (passTargets st) st).1

/-- Per-severity alert counters of the dashboard summary, initialised to
zero (src/terraform/main.tf lines 401-405). -/
structure AlertCounts where
  critical : Nat
  warning : Nat
  info : Nat
deriving DecidableEq, Repr

/-- The dashboard summary value built on a cache miss
(src/terraform/main.tf lines 397-417); the floating-point resource
averages and the constant uptime figure are omitted (no claim mentions
them). -/
structure Summary where
  totalServers : Nat
  totalContainers : Nat
  alerts : AlertCounts
  lastUpdated : Nat
deriving DecidableEq, Repr

/-- Row of `SELECT severity, COUNT(*) FROM alerts WHERE acknowledged =
false GROUP BY severity` for one severity value: present with its count
when at least one unacknowledged alert has that severity, absent
otherwise. -/
def groupRow (alerts : List Alert) (sev : Severity) : List (Severity × Nat) :=
  if (alerts.filter fun a => !a.acknowledged && decide (a.severity = sev)).length = 0
  then []
  else [(sev,
    (alerts.filter fun a => !a.acknowledged && decide (a.severity = sev)).length)]

/-- Full result of the GROUP BY query (src/terraform/main.tf line 385):
one row per severity value occurring among unacknowledged alerts. Row
order is normalised to enum order; the consumer writes each row into a
distinct key, so order is immaterial. -/
def severityGroups (alerts : List Alert) : List (Severity × Nat) :=
  groupRow alerts Severity.critical ++ groupRow alerts Severity.warning ++
    groupRow alerts Severity.info

/-- The forEach that copies the grouped rows over the zero-initialised
counters (src/terraform/main.tf lines 414-417). -/
def applyGroups (init : AlertCounts) (rows : List (Severity × Nat)) : AlertCounts :=
  rows.foldl
    (fun acc row =>
      match row.1 with
      | Severity.critical => { acc with critical := row.2 }
      | Severity.warning => { acc with warning := row.2 }
      | Severity.info => { acc with info := row.2 })
    init

/-- The summary computed from the store on a cache miss
(src/terraform/main.tf lines 382-417): totalServers counts servers WHERE
status = online, totalContainers counts all container rows, and the
per-severity counters are the zero-initialised record overwritten by the
grouped unacknowledged-alert counts. -/
def computeSummary (st : Store) (now : Nat) : Summary :=
  { totalServers :=
      (st.servers.filter fun s => decide (s.status = ServerStatus.online)).length
    totalContainers := st.containers.length
    alerts := applyGroups ⟨0, 0, 0⟩ (severityGroups st.alerts)
    lastUpdated := now }

/-- The Redis cache for the dashboard:summary key: at most one entry,
with the absolute expiry instant recorded at setEx time. -/
structure Cache where
  entry : Option (Summary × Nat)
deriving DecidableEq, Repr

/-- Redis GET: returns the stored value while now is before its expiry,
nothing afterwards (an expired key behaves like an absent one). -/
def cacheGet (c : Cache) (now : Nat) : Option Summary :=
  match c.entry with
  | some (v, expiresAt) => if now < expiresAt then some v else none
  | none => none

/-- Redis SETEX with a ttl in seconds: stores the value with expiry
now + ttl. -/
def cacheSetEx (now ttl : Nat) (v : Summary) : Cache :=
  { entry := some (v, now + ttl) }

/-- GET /api/dashboard/summary (src/terraform/main.tf lines 371-432):
return the cached value when the key is live, otherwise recompute from
the store, cache it for 30 seconds, and return the fresh value. -/
def getSummary (st : Store) (c : Cache) (now : Nat) : Summary × Cache :=
  match cacheGet c now with
  | some v => (v, c)
  | none =>
    let s := computeSummary st now
    (s, cacheSetEx now 30 s)

/-- Invariant of the alerts table stated by the spec: the acknowledged
flag is set exactly when the acknowledgment timestamp is present. -/
def alertInv (st : Store) : Prop :=
  ∀ a ∈ st.alerts, a.acknowledged = true ↔ a.acknowledgedAt.isSome = true

/-! Concrete fixtures used by witnesses and counterexamples; values follow
the sample rows of src/db/init.sql. -/

/-- An online server, as in the sample data. -/
def srvOnline : Server :=
  { id := 1, name := "Production DB 01", ipAddress := "10.0.1.10"
    status := ServerStatus.online, lastChecked := none }

/-- An offline server, as the sample Backup Server row. -/
def srvOffline : Server :=
  { id := 2, name := "Backup Server", ipAddress := "10.0.1.60"
    status := ServerStatus.offline, lastChecked := none }

/-- An open, unacknowledged critical alert for server 1 with the same
signature the health-check job emits. -/
def openAlert1 : Alert :=
  { id := 1, serverId := some 1, severity := Severity.critical
    source := none, message := "Server 10.0.1.10 is not responding"
    details := none, acknowledged := false, acknowledgedBy := none
    acknowledgedAt := none, createdAt := 0, updatedAt := 0 }

/-- Store with a single online server that already carries one open
critical alert. -/
def st1 : Store :=
  { servers := [srvOnline], containers := [], alerts := [openAlert1]
    nextAlertId := 2 }

/-- Store with a single offline server and no alerts. -/
def st2 : Store :=
  { servers := [srvOffline], containers := [], alerts := [], nextAlertId := 1 }

/-- Store with one open alert and no servers, for acknowledge scenarios. -/
def st3 : Store :=
  { servers := [], containers := [], alerts := [openAlert1], nextAlertId := 2 }

/-! Claims C3, C4, C5: the acknowledge endpoint. -/

/-- Claim C3, counterexample: acknowledging the open alert twice (same
actor 1, at times 10 then 20) does not yield the same terminal state as
acknowledging it once — the second call overwrites acknowledged_at with
the later NOW(), so the timestamp differs from the single-acknowledgment
run; with a different second actor the acknowledger differs as well. -/
theorem c3_double_ack_counterexample :
    ((acknowledgeAlert (acknowledgeAlert st3 1 1 10).1 1 1 20).1.alerts.map
        fun a => (a.acknowledged, a.acknowledgedBy, a.acknowledgedAt)) =
      [(true, some 1, some 20)] ∧
    ((acknowledgeAlert st3 1 1 10).1.alerts.map
        fun a => (a.acknowledged, a.acknowledgedBy, a.acknowledgedAt)) =
      [(true, some 1, some 10)] ∧
    (acknowledgeAlert (acknowledgeAlert st3 1 1 10).1 1 1 20).1 ≠
      (acknowledgeAlert st3 1 1 10).1 := by
  refine ⟨rfl, rfl, ?_⟩
  decide

/-- Claim C3, amended: acknowledgment is last-write-wins, not idempotent.
Acknowledging twice yields the state of a single acknowledgment with the
second actor and second timestamp (so it coincides with one
acknowledgment only when the second call carries the same actor and the
same NOW()), and both calls report HTTP 200 success. -/
theorem c3_ack_last_write_wins (st : Store) (alertId a1 t1 a2 t2 : Nat) :
    acknowledgeAlert (acknowledgeAlert st alertId a1 t1).1 alertId a2 t2 =
      acknowledgeAlert st alertId a2 t2 ∧
    (acknowledgeAlert st alertId a1 t1).2 = 200 ∧
    (acknowledgeAlert (acknowledgeAlert st alertId a1 t1).1 alertId a2 t2).2 = 200 := by
  refine ⟨?_, rfl, rfl⟩
  simp only [acknowledgeAlert, List.map_map, Prod.mk.injEq]
  constructor
  · congr 1
    apply List.map_congr_left
    intro a _
    by_cases h : a.id = alertId
    · simp [Function.comp, h, ackRow]
    · simp [Function.comp, h]
  · trivial

/-- Claim C4, counterexample: acknowledging an id that matches no alert
row (id 99 against a store whose only alert has id 1) reports HTTP 200
success, not 404, leaving the store unchanged. -/
theorem c4_unknown_id_counterexample :
    (acknowledgeAlert st3 99 7 10).2 = 200 ∧
    (acknowledgeAlert st3 99 7 10).2 ≠ 404 ∧
    (acknowledgeAlert st3 99 7 10).1 = st3 := by
  refine ⟨rfl, ?_, ?_⟩ <;> decide

/-- Claim C4, amended: for an alert id matching no row, the endpoint
leaves every alert row unchanged but reports HTTP 200 success; no
NotFound (404) is ever signalled. -/
theorem c4_unknown_id_success_unchanged (st : Store) (alertId userId now : Nat)
    (h : ∀ a ∈ st.alerts, a.id ≠ alertId) :
    acknowledgeAlert st alertId userId now = (st, 200) := by
  simp only [acknowledgeAlert, Prod.mk.injEq]
  constructor
  · have heq : st.alerts.map
        (fun a => if a.id = alertId then ackRow userId now a else a) =
          st.alerts.map id := by
      apply List.map_congr_left
      intro a ha
      simp [h a ha]
    rw [heq, List.map_id]
  · trivial

/-- Claim C4, witness: the amended theorem applied to the store whose
only alert has id 1 and the unknown id 99. -/
theorem c4_unknown_id_witness :
    (∀ a ∈ st3.alerts, a.id ≠ 99) ∧ acknowledgeAlert st3 99 7 10 = (st3, 200) :=
  ⟨by decide, c4_unknown_id_success_unchanged st3 99 7 10 (by decide)⟩

/-- Claim C5, counterexample: an actor with the viewer role acknowledges
the open alert: the response is HTTP 200 (never 403) and the alert row is
modified (acknowledged becomes true) — no role check exists. -/
theorem c5_viewer_can_acknowledge_counterexample :
    (acknowledgeHandler st3 1 ⟨7, Role.viewer⟩ 10).2 = 200 ∧
    (acknowledgeHandler st3 1 ⟨7, Role.viewer⟩ 10).2 ≠ 403 ∧
    ((acknowledgeHandler st3 1 ⟨7, Role.viewer⟩ 10).1.alerts.map Alert.acknowledged) =
      [true] := by
  refine ⟨rfl, ?_, rfl⟩
  decide

/-- Claim C5, amended: the handler performs no role check at all — its
result is independent of the actor's role, every role (including viewer)
acknowledges with identical effect, and the response is always HTTP 200,
never 403. -/
theorem c5_no_role_check (st : Store) (alertId uid : Nat) (r r2 : Role) (now : Nat) :
    acknowledgeHandler st alertId ⟨uid, r⟩ now =
      acknowledgeHandler st alertId ⟨uid, r2⟩ now ∧
    (acknowledgeHandler st alertId ⟨uid, r⟩ now).2 = 200 :=
  ⟨rfl, rfl⟩

/-! Claims C1, C2, C9: the health-check job. -/

/-- Claim C1: evaluation of the health-check job at the failing input.
Starting from a store whose online server 1 already carries one open,
unacknowledged critical alert with the exact dedup key (server 1, source
NULL, severity critical) the job itself emits, a single failed tick
inserts a second alert row instead of updating the existing one: two open
alerts with the same dedup key exist afterwards, not one. -/
theorem c1_duplicate_alert_inserted :
    ((healthTick (fun _ => false) 50 st1).alerts.filter fun a =>
        !a.acknowledged && decide (a.serverId = some 1) &&
          decide (a.source = (none : Option String)) &&
          decide (a.severity = Severity.critical)).length = 2 := by
  rfl

/-- Claim C2, counterexample: a store whose only server is offline, with
a probe oracle that reports healthy for every server. The claim says the
next tick transitions the server back to online; in the code the tick
selects only servers WHERE status = online, so the offline server is
never probed and its status stays offline. -/
theorem c2_offline_stays_offline_counterexample :
    ((healthTick (fun _ => true) 100 st2).servers.map Server.status) =
      [ServerStatus.offline] ∧
    ServerStatus.offline ≠ ServerStatus.online := by
  refine ⟨rfl, ?_⟩
  decide

/-- Generic preservation of a store predicate along a sampling pass: if
every successful step from a snapshot member preserves P, the state the
pass returns (completed or aborted) satisfies P. -/
theorem runPass_preserves (P : Store → Prop) (step : Store → Server → Option Store) :
    ∀ (targets : List Server) (st : Store),
      (∀ acc srv, srv ∈ targets → P acc → ∀ st2, step acc srv = some st2 → P st2) →
      P st → P (runPass step targets st).1
  | [], st, _, hP => hP
  | srv :: rest, st, hstep, hP => by
    simp only [runPass]
    cases hs : step st srv with
    | some st2 =>
      exact runPass_preserves P step rest st2
        (fun acc s hmem hPa => hstep acc s (List.mem_cons_of_mem _ hmem) hPa)
        (hstep st srv (List.mem_cons_self _ _) hP st2 hs)
    | none => exact hP

/-- One loop iteration for server srv leaves the row of any server with a
different id untouched (membership preserved) and adds no alert that
references that other id. -/
theorem checkServer_other_id (b : Bool) (now : Nat) (acc : Store) (srv s : Server)
    (hid : srv.id ≠ s.id) (hs : s ∈ acc.servers) :
    s ∈ (checkServer b now acc srv).servers ∧
    ((checkServer b now acc srv).alerts.filter fun a => decide (a.serverId = some s.id)) =
      (acc.alerts.filter fun a => decide (a.serverId = some s.id)) := by
  have hne : ¬(s.id = srv.id) := fun h => hid h.symm
  constructor
  · have hmem : s ∈ acc.servers.map (fun t =>
        if t.id = srv.id then
          { t with
              status := if b then ServerStatus.online else ServerStatus.offline
              lastChecked := some now }
        else t) :=
      List.mem_map.mpr ⟨s, hs, by rw [if_neg hne]⟩
    cases b <;> simpa [checkServer] using hmem
  · cases b with
    | true => simp [checkServer]
    | false =>
      simp only [checkServer, List.filter_append]
      have : ((failureAlert acc.nextAlertId srv now).serverId = some s.id) = False := by
        simp [failureAlert, Option.some.injEq]
        exact hid
      simp [this]

/-- Claim C2, amended: a server whose status is offline is excluded from
the sampling pass (the snapshot selects only status = online), so a tick
leaves its row exactly as it was — no probe, no status transition, no
last_checked update — and adds no alert referencing it; in particular it
never recovers to online through the sampler. Stated for stores whose
server ids are distinct, as the SERIAL primary key guarantees. -/
theorem c2_offline_server_untouched (healthy : Nat → Bool) (now : Nat) (st : Store)
    (s : Server) (hnd : (st.servers.map Server.id).Nodup)
    (hs : s ∈ st.servers) (hoff : s.status = ServerStatus.offline) :
    s ∈ (healthTick healthy now st).servers ∧
    ((healthTick healthy now st).alerts.filter fun a => decide (a.serverId = some s.id)) =
      (st.alerts.filter fun a => decide (a.serverId = some s.id)) := by
  have htarget : ∀ t ∈ passTargets st, t.id ≠ s.id := by
    intro t ht hts
    have htm := List.of_mem_filter ht
    have htin : t ∈ st.servers := List.mem_of_mem_filter ht
    have hton : t.status = ServerStatus.online := by simpa using htm
    have : t = s := List.inj_on_of_nodup_map hnd htin hs hts
    rw [this, hoff] at hton
    exact absurd hton (by decide)
  exact runPass_preserves
    (fun acc => s ∈ acc.servers ∧
      (acc.alerts.filter fun a => decide (a.serverId = some s.id)) =
        (st.alerts.filter fun a => decide (a.serverId = some s.id)))
    _ (passTargets st) st
    (by
      intro acc srv hmem hP st2 hstep
      obtain ⟨hPs, hPa⟩ := hP
      have hstep2 : checkServer (healthy srv.id) now acc srv = st2 :=
        Option.some.inj hstep
      obtain ⟨hmem2, hfil⟩ :=
        checkServer_other_id (healthy srv.id) now acc srv s (htarget srv hmem) hPs
      rw [hstep2] at hmem2 hfil
      exact ⟨hmem2, hfil.trans hPa⟩)
    ⟨hs, rfl⟩

/-- Store holding one online and one offline server and one open alert;
input of the witness for claim C2. -/
def stMixed : Store :=
  { servers := [srvOnline, srvOffline], containers := []
    alerts := [openAlert1], nextAlertId := 2 }

/-- Claim C2, witness: the amended theorem applied to the mixed store
with a probe oracle reporting unhealthy for every server. -/
theorem c2_offline_server_untouched_witness :
    ((stMixed.servers.map Server.id).Nodup ∧
      srvOffline ∈ stMixed.servers ∧
      srvOffline.status = ServerStatus.offline) ∧
    (srvOffline ∈ (healthTick (fun _ => false) 100 stMixed).servers ∧
      ((healthTick (fun _ => false) 100 stMixed).alerts.filter
          fun a => decide (a.serverId = some srvOffline.id)) =
        (stMixed.alerts.filter fun a => decide (a.serverId = some srvOffline.id))) :=
  ⟨⟨by decide, by decide, by decide⟩,
    c2_offline_server_untouched (fun _ => false) 100 stMixed srvOffline
      (by decide) (by decide) (by decide)⟩

/-- Two further online servers from the sample data, for the
fault-injection scenarios of claim C9. -/
def srvA : Server :=
  { id := 1, name := "API Gateway", ipAddress := "10.0.1.30"
    status := ServerStatus.online, lastChecked := none }

/-- Second online server of the fault-injection store. -/
def srvC : Server :=
  { id := 3, name := "Monitoring Server", ipAddress := "10.0.1.50"
    status := ServerStatus.online, lastChecked := none }

/-- Store with two online servers, neither checked yet. -/
def stTwo : Store :=
  { servers := [srvA, srvC], containers := [], alerts := [], nextAlertId := 1 }

/-- Fault model for claim C9: the awaited status update (or alert insert)
for server 1 rejects, every other server's loop body succeeds with a
healthy probe. -/
def faultyStep (now : Nat) (acc : Store) (srv : Server) : Option Store :=
  if srv.id = 1 then none else some (checkServer true now acc srv)

/-- Claim C9, counterexample: with server 1 (first in the snapshot)
raising and server 3 behind it, the pass aborts at server 1: afterwards
neither server has been checked (last_checked is still NULL for server 3,
which a completed check would have set to NOW() = 100) and the pass did
not complete. The claim says every remaining server is still checked. -/
theorem c9_abort_counterexample :
    ((runPass (faultyStep 100) (passTargets stTwo) stTwo).1.servers.map
        Server.lastChecked) = [none, none] ∧
    (runPass (faultyStep 100) (passTargets stTwo) stTwo).2 = false :=
  ⟨rfl, rfl⟩

/-- Claim C9, amended: a failure of an individual server's check aborts
the sampling pass. The loop sits inside a single pass-level try/catch, so
when the step for server f raises after the prefix pre has succeeded, the
pass stops with exactly the state the prefix produced: the servers after
f are not processed at all (the result does not depend on post) and the
pass is marked incomplete; the error is only logged, so the writes made
before the failure persist. -/
theorem c9_failure_aborts_pass (step : Store → Server → Option Store)
    (pre post : List Server) (f : Server) (st stPre : Store)
    (hpre : runPass step pre st = (stPre, true))
    (hf : step stPre f = none) :
    runPass step (pre ++ f :: post) st = (stPre, false) := by
  induction pre generalizing st with
  | nil =>
    simp only [runPass, Prod.mk.injEq] at hpre
    obtain ⟨rfl, -⟩ := hpre
    rw [List.nil_append]
    simp [runPass, hf]
  | cons srv rest ih =>
    rw [List.cons_append]
    simp only [runPass] at hpre ⊢
    cases hs : step st srv with
    | some st2 =>
      rw [hs] at hpre
      exact ih st2 hpre
    | none =>
      rw [hs] at hpre
      exact absurd hpre (by simp)

/-- Claim C9, witness: the amended theorem applied to the faulty step,
prefix [srvC], failing server srvA and one server behind it. -/
theorem c9_failure_aborts_pass_witness :
    runPass (faultyStep 100) [srvC] stTwo = (checkServer true 100 stTwo srvC, true) ∧
    faultyStep 100 (checkServer true 100 stTwo srvC) srvA = none ∧
    runPass (faultyStep 100) ([srvC] ++ srvA :: [srvOnline]) stTwo =
      (checkServer true 100 stTwo srvC, false) :=
  ⟨rfl, rfl,
    c9_failure_aborts_pass (faultyStep 100) [srvC] [srvOnline] srvA stTwo
      (checkServer true 100 stTwo srvC) rfl rfl⟩

/-! Claims C6, C7, C8, C10: the alert invariant and the summary path. -/

/-- One loop iteration preserves the acknowledged-iff-timestamped
invariant: a new failure alert starts with acknowledged = false and
acknowledged_at NULL, and no existing alert row is modified. -/
theorem checkServer_preserves_alertInv (b : Bool) (now : Nat) (acc : Store)
    (srv : Server) (h : alertInv acc) : alertInv (checkServer b now acc srv) := by
  cases b with
  | true =>
    intro a ha
    exact h a (by simpa [checkServer] using ha)
  | false =>
    intro a ha
    simp only [checkServer] at ha
    rcases List.mem_append.mp ha with h1 | h2
    · exact h a h1
    · simp only [List.mem_singleton] at h2
      subst h2
      simp [failureAlert]

/-- Claim C6: every operation that creates or mutates an alert preserves
the biconditional acknowledged = true iff acknowledged_at is non-null —
the health-check job creates alerts with the flag false and the timestamp
NULL, and the acknowledge endpoint sets the flag and the timestamp in the
same UPDATE. -/
theorem c6_ack_iff_timestamp_preserved (st : Store) (h : alertInv st)
    (healthy : Nat → Bool) (now alertId userId t : Nat) :
    alertInv (healthTick healthy now st) ∧
    alertInv ((acknowledgeAlert st alertId userId t).1) := by
  constructor
  · exact runPass_preserves alertInv _ (passTargets st) st
      (fun acc srv _ hP st2 hstep => by
        rw [← Option.some.inj hstep]
        exact checkServer_preserves_alertInv (healthy srv.id) now acc srv hP) h
  · intro a ha
    simp only [acknowledgeAlert] at ha
    rcases List.mem_map.mp ha with ⟨b, hb, rfl⟩
    by_cases hid : b.id = alertId
    · simp [hid, ackRow]
    · simp only [if_neg hid]
      exact h b hb

/-- Claim C6, witness: the preservation theorem applied to the store with
one open alert, an unhealthy tick, and an acknowledgment of alert 1. -/
theorem c6_ack_iff_timestamp_witness :
    alertInv st3 ∧
    (alertInv (healthTick (fun _ => false) 5 st3) ∧
      alertInv ((acknowledgeAlert st3 1 1 5).1)) :=
  ⟨by simp only [alertInv]; decide,
    c6_ack_iff_timestamp_preserved st3 (by simp only [alertInv]; decide)
      (fun _ => false) 5 1 1 5⟩

/-- Claim C7: the summary endpoint follows the cache-aside contract — a
live cached value is returned as-is with the cache untouched (and no
store recomputation), and on a miss the summary recomputed from the store
is returned and cached with the fixed 30-second TTL. -/
theorem c7_cache_aside_contract (st : Store) (c : Cache) (now : Nat) :
    (∀ v, cacheGet c now = some v → getSummary st c now = (v, c)) ∧
    (cacheGet c now = none →
      getSummary st c now =
        (computeSummary st now, cacheSetEx now 30 (computeSummary st now))) := by
  constructor
  · intro v hv
    simp [getSummary, hv]
  · intro hv
    simp [getSummary, hv]

/-- A cached summary value, live until instant 100. -/
def sumW : Summary :=
  { totalServers := 5, totalContainers := 2, alerts := ⟨1, 0, 0⟩, lastUpdated := 7 }

/-- Cache holding sumW with expiry 100. -/
def cacheHit : Cache := { entry := some (sumW, 100) }

/-- The empty cache. -/
def cacheEmpty : Cache := { entry := none }

/-- Claim C7, witness: the contract applied at a live-cache hit (now = 50,
expiry 100) and at a miss on the empty cache. -/
theorem c7_cache_aside_witness :
    (cacheGet cacheHit 50 = some sumW ∧
      getSummary st1 cacheHit 50 = (sumW, cacheHit)) ∧
    (cacheGet cacheEmpty 50 = none ∧
      getSummary st1 cacheEmpty 50 =
        (computeSummary st1 50, cacheSetEx 50 30 (computeSummary st1 50))) :=
  ⟨⟨rfl, (c7_cache_aside_contract st1 cacheHit 50).1 sumW rfl⟩,
    ⟨rfl, (c7_cache_aside_contract st1 cacheEmpty 50).2 rfl⟩⟩

/-- Claim C8: the per-severity counters the summary path computes on a
cache miss equal, for each severity, the number of alert rows with
acknowledged = false and that severity — the zero-initialised record
overwritten by the GROUP BY rows reproduces the plain filtered counts. -/
theorem c8_severity_counts_match_store (st : Store) (now : Nat) :
    (computeSummary st now).alerts.critical =
      (st.alerts.filter fun a =>
        !a.acknowledged && decide (a.severity = Severity.critical)).length ∧
    (computeSummary st now).alerts.warning =
      (st.alerts.filter fun a =>
        !a.acknowledged && decide (a.severity = Severity.warning)).length ∧
    (computeSummary st now).alerts.info =
      (st.alerts.filter fun a =>
        !a.acknowledged && decide (a.severity = Severity.info)).length := by
  set nc := (st.alerts.filter fun a =>
    !a.acknowledged && decide (a.severity = Severity.critical)).length with hnc
  set nw := (st.alerts.filter fun a =>
    !a.acknowledged && decide (a.severity = Severity.warning)).length with hnw
  set ni := (st.alerts.filter fun a =>
    !a.acknowledged && decide (a.severity = Severity.info)).length with hni
  simp only [computeSummary, severityGroups, groupRow, ← hnc, ← hnw, ← hni]
  by_cases hc : nc = 0 <;> by_cases hw : nw = 0 <;> by_cases hi : ni = 0 <;>
    simp only [hc, hw, hi, if_pos, if_neg, ite_true, ite_false, reduceIte,
      List.append_nil, List.nil_append, List.append_assoc, applyGroups,
      List.foldl_cons, List.foldl_nil] <;>
    refine ⟨?_, ?_, ?_⟩ <;> first | rfl | simp [hc, hw, hi]

/-- Claim C10: totalServers computed on a cache miss counts exactly the
servers whose status is online; servers in any other status (offline,
maintenance, degraded) are excluded, so adding their number back gives
the full row count. -/
theorem c10_total_servers_online_only (st : Store) (now : Nat) :
    (computeSummary st now).totalServers =
      (st.servers.filter fun s => decide (s.status = ServerStatus.online)).length ∧
    (computeSummary st now).totalServers +
      (st.servers.filter fun s => !decide (s.status = ServerStatus.online)).length =
      st.servers.length := by
  refine ⟨rfl, ?_⟩
  simp only [computeSummary]
  exact (List.length_eq_length_filter_add
    (fun (s : Server) => decide (s.status = ServerStatus.online))).symm
